import Mathlib

/-!
Verification model of the SurfaceFlinger frame-timeline engine
(services/surfaceflinger/FrameTimeline/FrameTimeline.h).

The repository ships the header only: structure layouts, member initial
values and the internal constants (retention 120 ms, thresholds 2 ms,
default history bound 64, first token one above the invalid sentinel) are
taken from that header. The bodies of the member functions are not part of
the repository as staged, so each operation below is modelled from the
specification text; such definitions carry a doc comment starting with
"Modelled from the spec:".

Timestamps (nsecs_t) are modelled as Int, jank bitmasks (int32_t used as a
bitmask) as Nat.
-/

namespace Frametimeline

/-- nsecs_t: timestamps in nanoseconds. -/
abbrev Nsecs := Int

/-- Collection of timestamps used for both predictions and actual times
(struct TimelineItem). All three components default-initialize to 0, the
sentinel for "not yet set". -/
structure TimelineItem where
  startTime : Nsecs
  endTime : Nsecs
  presentTime : Nsecs
  deriving DecidableEq, Repr

/-- The all-zero TimelineItem, the value of a default-constructed item. -/
def zeroTimelineItem : TimelineItem := ⟨0, 0, 0⟩

/-- struct TokenManagerPrediction: an insertion timestamp paired with the
stored prediction triple. -/
structure TokenManagerPrediction where
  timestamp : Nsecs
  predictions : TimelineItem
  deriving DecidableEq, Repr

/-- struct JankClassificationThresholds. -/
structure JankClassificationThresholds where
  presentThreshold : Nsecs
  deadlineThreshold : Nsecs
  startThreshold : Nsecs
  deriving DecidableEq, Repr

/-- The default thresholds: 2 ms (2 000 000 ns) each, the member
initializers of JankClassificationThresholds in the header. -/
def defaultJankClassificationThresholds : JankClassificationThresholds :=
  ⟨2000000, 2000000, 2000000⟩

/-- Modelled from the spec: the invalid-token sentinel
ISurfaceComposer.INVALID_VSYNC_ID, declared in gui/ISurfaceComposer.h which
is outside the staged sources. Its concrete value is immaterial to the
claims; the AOSP value -1 is used. -/
def INVALID_VSYNC_ID : Int := -1

/-- TokenManager.kMaxRetentionTime: 120 ms in nanoseconds (header constant). -/
def kMaxRetentionTime : Nsecs := 120000000

/-- FrameTimeline.kDefaultMaxDisplayFrames (header constant). -/
def kDefaultMaxDisplayFrames : Nat := 64

/- Modelled from the spec: the JankType bitmask bits. The enumerators live
in gui/JankInfo.h, outside the staged sources; the spec only requires a
bitmask over distinct causes, so distinct powers of two are used. -/
namespace JankType

def None : Nat := 0

def DisplayHAL : Nat := 1

def SurfaceFlingerDeadlineMissed : Nat := 2

def SurfaceFlingerScheduling : Nat := 4

def PredictionError : Nat := 8

def AppDeadlineMissed : Nat := 16

def AppBufferStuffing : Nat := 32

def Unknown : Nat := 64

end JankType

/-- Whether a jank bitmask has a given cause bit set. -/
def hasJank (mask bit : Nat) : Bool := mask &&& bit != 0

/-- Metadata indicating how the frame was presented w.r.t. the expected
present time (enum FramePresentMetadata). -/
inductive FramePresentMetadata where
  | OnTimePresent
  | LatePresent
  | EarlyPresent
  | UnknownPresent
  deriving DecidableEq, Repr

/-- Metadata comparing the actual finish time to the expected deadline
(enum FrameReadyMetadata). -/
inductive FrameReadyMetadata where
  | OnTimeFinish
  | LateFinish
  | UnknownFinish
  deriving DecidableEq, Repr

/-- Metadata comparing the actual start time to the expected start time
(enum FrameStartMetadata). -/
inductive FrameStartMetadata where
  | OnTimeStart
  | LateStart
  | EarlyStart
  | UnknownStart
  deriving DecidableEq, Repr

/-- enum PredictionState. -/
inductive PredictionState where
  | Valid
  | Expired
  | None
  deriving DecidableEq, Repr

/-- enum SurfaceFrame.PresentState. -/
inductive PresentState where
  | Presented
  | Dropped
  | Unknown
  deriving DecidableEq, Repr

/-- Modelled from the spec: start-metadata classification (section 4.4
step 1): OnTimeStart when the actual start is within startThreshold of the
prediction, LateStart when later than that, EarlyStart otherwise. -/
def computeStartMetadata (thresholds : JankClassificationThresholds)
    (predictedStartTime actualStartTime : Nsecs) : FrameStartMetadata :=
  if abs (actualStartTime - predictedStartTime) ≤ thresholds.startThreshold then
    FrameStartMetadata.OnTimeStart
  else if actualStartTime > predictedStartTime + thresholds.startThreshold then
    FrameStartMetadata.LateStart
  else
    FrameStartMetadata.EarlyStart

/-- Modelled from the spec: ready-metadata classification (section 4.4
step 2): OnTimeFinish when the actual end does not exceed the predicted end
by more than deadlineThreshold (an early finish counts as on time), else
LateFinish. -/
def computeReadyMetadata (thresholds : JankClassificationThresholds)
    (predictedEndTime actualEndTime : Nsecs) : FrameReadyMetadata :=
  if actualEndTime ≤ predictedEndTime + thresholds.deadlineThreshold then
    FrameReadyMetadata.OnTimeFinish
  else
    FrameReadyMetadata.LateFinish

/-- Modelled from the spec: present-metadata classification (section 4.4
step 3): OnTimePresent within presentThreshold, LatePresent when later,
EarlyPresent when earlier. -/
def computePresentMetadata (thresholds : JankClassificationThresholds)
    (predictedPresentTime actualPresentTime : Nsecs) : FramePresentMetadata :=
  if abs (actualPresentTime - predictedPresentTime) ≤ thresholds.presentThreshold then
    FramePresentMetadata.OnTimePresent
  else if actualPresentTime > predictedPresentTime then
    FramePresentMetadata.LatePresent
  else
    FramePresentMetadata.EarlyPresent

/-- Modelled from the spec: the DisplayFrame jank bitmask as a combination
of Ready and Present metadata (section 4.4 step 4). Metadata combinations
the spec leaves to the missing-prediction path map to Unknown. -/
def computeDisplayJank (ready : FrameReadyMetadata) (present : FramePresentMetadata)
    (predictedPresentTime actualPresentTime vsyncPeriod : Nsecs) : Nat :=
  match ready, present with
  | FrameReadyMetadata.OnTimeFinish, FramePresentMetadata.OnTimePresent => JankType.None
  | FrameReadyMetadata.LateFinish, FramePresentMetadata.LatePresent =>
      JankType.SurfaceFlingerDeadlineMissed
  | FrameReadyMetadata.OnTimeFinish, FramePresentMetadata.LatePresent => JankType.DisplayHAL
  | FrameReadyMetadata.OnTimeFinish, FramePresentMetadata.EarlyPresent =>
      if vsyncPeriod ≤ predictedPresentTime - actualPresentTime then
        JankType.SurfaceFlingerScheduling ||| JankType.PredictionError
      else JankType.SurfaceFlingerScheduling
  | FrameReadyMetadata.LateFinish, FramePresentMetadata.EarlyPresent =>
      if vsyncPeriod ≤ predictedPresentTime - actualPresentTime then
        JankType.SurfaceFlingerScheduling ||| JankType.PredictionError
      else JankType.SurfaceFlingerScheduling
  | FrameReadyMetadata.LateFinish, FramePresentMetadata.OnTimePresent =>
      if abs (actualPresentTime - predictedPresentTime) ≤ vsyncPeriod then JankType.None
      else JankType.PredictionError
  | _, _ => JankType.Unknown

/-- State of impl.TokenManager: the registry map (modelled as an
insertion-ordered association list, keys strictly below mCurrentToken) and
the running token counter. -/
structure TokenManagerState where
  mPredictions : List (Int × TokenManagerPrediction)
  mCurrentToken : Int

/-- The freshly constructed TokenManager: empty registry, counter at
ISurfaceComposer.INVALID_VSYNC_ID + 1 (header member initializer). -/
def initTokenManager : TokenManagerState :=
  ⟨[], INVALID_VSYNC_ID + 1⟩

/-- Modelled from the spec: TokenManager.flushTokens, the lazy sweep run by
every mutating registry operation, removes every entry whose
insertionTimestamp + 120 ms is before the flush time. -/
def flushTokens (flushTime : Nsecs) (m : List (Int × TokenManagerPrediction)) :
    List (Int × TokenManagerPrediction) :=
  m.filter fun e => !decide (e.2.timestamp + kMaxRetentionTime < flushTime)

/-- Modelled from the spec: TokenManager.generateTokenForPredictions assigns
the next token, sweeps expired entries, records (now, prediction) under the
new token and returns it. `now` is the wall-clock time of the call. -/
def generateTokenForPredictions (now : Nsecs) (prediction : TimelineItem)
    (st : TokenManagerState) : Int × TokenManagerState :=
  let assignedToken := st.mCurrentToken
  (assignedToken,
    ⟨flushTokens now st.mPredictions ++ [(assignedToken, ⟨now, prediction⟩)],
      assignedToken + 1⟩)

/-- Modelled from the spec: TokenManager.getPredictionsForToken returns the
stored prediction if present and unexpired, otherwise none; it never sweeps.
`now` is the wall-clock time of the call. -/
def getPredictionsForToken (now : Nsecs) (token : Int) (st : TokenManagerState) :
    Option TimelineItem :=
  match st.mPredictions.find? (fun e => decide (e.1 = token)) with
  | some e =>
      if e.2.timestamp + kMaxRetentionTime < now then none else some e.2.predictions
  | none => none

/-- Applies a sequence of generateTokenForPredictions calls, each given as
(call time, prediction), keeping only the final state. -/
def applyGenerates (gens : List (Nsecs × TimelineItem)) (st : TokenManagerState) :
    TokenManagerState :=
  gens.foldl (fun s g => (generateTokenForPredictions g.1 g.2 s).2) st

/-- Runs a sequence of generateTokenForPredictions calls and collects the
returned tokens in call order, along with the final state. -/
def runGenerate : List (Nsecs × TimelineItem) → TokenManagerState →
    List Int × TokenManagerState
  | [], st => ([], st)
  | g :: gs, st =>
      let r := generateTokenForPredictions g.1 g.2 st
      let rest := runGenerate gs r.2
      (r.1 :: rest.1, rest.2)

/-- class SurfaceFrame: per-layer per-buffer record. Field names and
initial values follow the header declaration. -/
structure SurfaceFrame where
  mToken : Int
  mOwnerPid : Int
  mOwnerUid : Int
  mLayerName : String
  mDebugName : String
  mPresentState : PresentState
  mPredictionState : PredictionState
  mPredictions : TimelineItem
  mActuals : TimelineItem
  mJankClassificationThresholds : JankClassificationThresholds
  mActualQueueTime : Nsecs
  mJankType : Nat
  mGpuComposition : Bool
  mFramePresentMetadata : FramePresentMetadata
  mFrameReadyMetadata : FrameReadyMetadata
  mLastLatchTime : Nsecs
  deriving DecidableEq, Repr

/-- The SurfaceFrame constructor: the facade supplies token, owner identity,
names, resolved prediction state and prediction tuple, and the thresholds;
every other member starts at its header initializer (PresentState Unknown,
zero actuals, jank bitmask JankType.None, Unknown metadata). -/
def SurfaceFrame.create (token : Int) (ownerPid ownerUid : Int)
    (layerName debugName : String) (predictionState : PredictionState)
    (predictions : TimelineItem)
    (thresholds : JankClassificationThresholds) : SurfaceFrame :=
  { mToken := token
    mOwnerPid := ownerPid
    mOwnerUid := ownerUid
    mLayerName := layerName
    mDebugName := debugName
    mPresentState := PresentState.Unknown
    mPredictionState := predictionState
    mPredictions := predictions
    mActuals := zeroTimelineItem
    mJankClassificationThresholds := thresholds
    mActualQueueTime := 0
    mJankType := JankType.None
    mGpuComposition := false
    mFramePresentMetadata := FramePresentMetadata.UnknownPresent
    mFrameReadyMetadata := FrameReadyMetadata.UnknownFinish
    mLastLatchTime := 0 }

/-- SurfaceFrame.setActualStartTime. -/
def SurfaceFrame.setActualStartTime (sf : SurfaceFrame) (actualStartTime : Nsecs) :
    SurfaceFrame :=
  { sf with mActuals := { sf.mActuals with startTime := actualStartTime } }

/-- SurfaceFrame.setActualQueueTime. -/
def SurfaceFrame.setActualQueueTime (sf : SurfaceFrame) (actualQueueTime : Nsecs) :
    SurfaceFrame :=
  { sf with mActualQueueTime := actualQueueTime }

/-- Modelled from the spec: SurfaceFrame.setAcquireFenceTime records when the
buffer became visually usable, the end of the application timeline, so it
fills actuals.endTime. -/
def SurfaceFrame.setAcquireFenceTime (sf : SurfaceFrame) (acquireFenceTime : Nsecs) :
    SurfaceFrame :=
  { sf with mActuals := { sf.mActuals with endTime := acquireFenceTime } }

/-- Modelled from the spec: SurfaceFrame.setPresentState; lastLatchTime is
retained only for Presented. -/
def SurfaceFrame.setPresentState (sf : SurfaceFrame) (presentState : PresentState)
    (lastLatchTime : Nsecs) : SurfaceFrame :=
  { sf with
    mPresentState := presentState
    mLastLatchTime :=
      if presentState = PresentState.Presented then lastLatchTime else sf.mLastLatchTime }

/-- Modelled from the spec: the per-SurfaceFrame jank verdict (section 4.4):
inherit SurfaceFlingerDeadlineMissed from the display frame, else
AppDeadlineMissed on a late own finish, else AppBufferStuffing when a
Presented frame had the previous buffer latched inside the current vsync
interval, else propagate DisplayHAL, else None. -/
def computeSurfaceJank (sf : SurfaceFrame) (displayFrameJankType : Nat)
    (vsyncPeriod : Nsecs) : Nat :=
  if hasJank displayFrameJankType JankType.SurfaceFlingerDeadlineMissed then
    JankType.SurfaceFlingerDeadlineMissed
  else if computeReadyMetadata sf.mJankClassificationThresholds sf.mPredictions.endTime
      sf.mActuals.endTime = FrameReadyMetadata.LateFinish then
    JankType.AppDeadlineMissed
  else if sf.mPresentState = PresentState.Presented ∧ sf.mLastLatchTime ≠ 0
      ∧ sf.mPredictions.presentTime - vsyncPeriod ≤ sf.mLastLatchTime
      ∧ sf.mLastLatchTime ≤ sf.mPredictions.presentTime then
    JankType.AppBufferStuffing
  else if hasJank displayFrameJankType JankType.DisplayHAL then
    JankType.DisplayHAL
  else
    JankType.None

/-- Modelled from the spec: SurfaceFrame.onPresent sets the actual present
time, classifies Ready and Present metadata against the predictions, and
computes the jank verdict with the display frame verdict as ambient cause.
With no valid prediction the predicted-vs-actual branches are skipped:
metadata stay Unknown and the verdict is JankType.Unknown (section 7). -/
def SurfaceFrame.onPresent (sf : SurfaceFrame) (presentTime : Nsecs)
    (displayFrameJankType : Nat) (vsyncPeriod : Nsecs) : SurfaceFrame :=
  if sf.mPredictionState = PredictionState.Valid then
    { sf with
      mActuals := { sf.mActuals with presentTime := presentTime }
      mFrameReadyMetadata :=
        computeReadyMetadata sf.mJankClassificationThresholds sf.mPredictions.endTime
          sf.mActuals.endTime
      mFramePresentMetadata :=
        computePresentMetadata sf.mJankClassificationThresholds
          sf.mPredictions.presentTime presentTime
      mJankType := computeSurfaceJank sf displayFrameJankType vsyncPeriod }
  else
    { sf with
      mActuals := { sf.mActuals with presentTime := presentTime }
      mFramePresentMetadata := FramePresentMetadata.UnknownPresent
      mFrameReadyMetadata := FrameReadyMetadata.UnknownFinish
      mJankType := JankType.Unknown }

/-- Modelled from the spec: SurfaceFrame.getJankType returns none while the
frame has not been classified yet (the header documents the nullopt case);
a frame is unclassified while its actual present time is still the zero
sentinel, since onPresent is what assigns it. -/
def SurfaceFrame.getJankType (sf : SurfaceFrame) : Option Nat :=
  if sf.mActuals.presentTime = 0 then none else some sf.mJankType

/-- class impl.FrameTimeline.DisplayFrame: the per-vsync aggregate. Field
names and initial values follow the header declaration. -/
structure DisplayFrame where
  mToken : Int
  mSurfaceFlingerPredictions : TimelineItem
  mSurfaceFlingerActuals : TimelineItem
  mJankClassificationThresholds : JankClassificationThresholds
  mSurfaceFrames : List SurfaceFrame
  mPredictionState : PredictionState
  mJankType : Nat
  mGpuComposition : Bool
  mFramePresentMetadata : FramePresentMetadata
  mFrameReadyMetadata : FrameReadyMetadata
  mFrameStartMetadata : FrameStartMetadata
  mVsyncPeriod : Nsecs
  deriving DecidableEq, Repr

/-- The DisplayFrame constructor: every member at its header initializer. -/
def DisplayFrame.create (thresholds : JankClassificationThresholds) : DisplayFrame :=
  { mToken := INVALID_VSYNC_ID
    mSurfaceFlingerPredictions := zeroTimelineItem
    mSurfaceFlingerActuals := zeroTimelineItem
    mJankClassificationThresholds := thresholds
    mSurfaceFrames := []
    mPredictionState := PredictionState.None
    mJankType := JankType.None
    mGpuComposition := false
    mFramePresentMetadata := FramePresentMetadata.UnknownPresent
    mFrameReadyMetadata := FrameReadyMetadata.UnknownFinish
    mFrameStartMetadata := FrameStartMetadata.UnknownStart
    mVsyncPeriod := 0 }

/-- Modelled from the spec: DisplayFrame.onSfWakeUp sets the token, the
vsync period and the SF start time, and resolves the display-side
predictions: Valid when the TokenManager lookup hit, Expired otherwise. -/
def DisplayFrame.onSfWakeUp (df : DisplayFrame) (token : Int) (vsyncPeriod : Nsecs)
    (predictions : Option TimelineItem) (wakeUpTime : Nsecs) : DisplayFrame :=
  { df with
    mToken := token
    mVsyncPeriod := vsyncPeriod
    mPredictionState :=
      match predictions with
      | some _ => PredictionState.Valid
      | none => PredictionState.Expired
    mSurfaceFlingerPredictions := predictions.getD zeroTimelineItem
    mSurfaceFlingerActuals := { df.mSurfaceFlingerActuals with startTime := wakeUpTime } }

/-- DisplayFrame.addSurfaceFrame appends in arrival order. -/
def DisplayFrame.addSurfaceFrame (df : DisplayFrame) (surfaceFrame : SurfaceFrame) :
    DisplayFrame :=
  { df with mSurfaceFrames := df.mSurfaceFrames ++ [surfaceFrame] }

/-- Modelled from the spec: the Open to AwaitingFence transition at
setSfPresent records actuals.endTime and evaluates the start and ready
metadata against the predictions; with no valid prediction the metadata
stay Unknown (section 7). -/
def DisplayFrame.finalize (df : DisplayFrame) (actualEndTime : Nsecs) : DisplayFrame :=
  if df.mPredictionState = PredictionState.Valid then
    { df with
      mSurfaceFlingerActuals := { df.mSurfaceFlingerActuals with endTime := actualEndTime }
      mFrameStartMetadata :=
        computeStartMetadata df.mJankClassificationThresholds
          df.mSurfaceFlingerPredictions.startTime df.mSurfaceFlingerActuals.startTime
      mFrameReadyMetadata :=
        computeReadyMetadata df.mJankClassificationThresholds
          df.mSurfaceFlingerPredictions.endTime actualEndTime }
  else
    { df with
      mSurfaceFlingerActuals := { df.mSurfaceFlingerActuals with endTime := actualEndTime } }

/-- Modelled from the spec: the present metadata a DisplayFrame computes at
fence resolution; Unknown when the predictions were not valid. -/
def DisplayFrame.presentMetadataAt (df : DisplayFrame) (signalTime : Nsecs) :
    FramePresentMetadata :=
  if df.mPredictionState = PredictionState.Valid then
    computePresentMetadata df.mJankClassificationThresholds
      df.mSurfaceFlingerPredictions.presentTime signalTime
  else FramePresentMetadata.UnknownPresent

/-- Modelled from the spec: the jank bitmask a DisplayFrame computes at
fence resolution, combining the stored ready metadata with the present
metadata; JankType.Unknown when the predictions were not valid. -/
def DisplayFrame.presentJankAt (df : DisplayFrame) (signalTime : Nsecs) : Nat :=
  if df.mPredictionState = PredictionState.Valid then
    computeDisplayJank df.mFrameReadyMetadata (df.presentMetadataAt signalTime)
      df.mSurfaceFlingerPredictions.presentTime signalTime df.mVsyncPeriod
  else JankType.Unknown

/-- Modelled from the spec: the AwaitingFence to Resolved transition. Sets
actuals.presentTime to the fence signal time, computes the present metadata
and the jank bitmask, then cascades to the contained SurfaceFrames with the
display verdict as ambient cause. Only Presented frames are updated: a
Dropped frame keeps no present time (section 3, invariant 6). -/
def DisplayFrame.onPresent (df : DisplayFrame) (signalTime : Nsecs) : DisplayFrame :=
  { df with
    mSurfaceFlingerActuals :=
      { df.mSurfaceFlingerActuals with presentTime := signalTime }
    mFramePresentMetadata := df.presentMetadataAt signalTime
    mJankType := df.presentJankAt signalTime
    mSurfaceFrames := df.mSurfaceFrames.map fun sf =>
      if sf.mPresentState = PresentState.Presented then
        sf.onPresent signalTime (df.presentJankAt signalTime) df.mVsyncPeriod
      else sf }

/-- A present fence is identified by an id; the status each facade call
observes for it is given by a snapshot (none while unsignaled, some signal
time once signaled), matching the non-blocking FenceTime query. -/
abbrev FenceId := Nat

/-- The fence statuses as observed at one facade call. -/
abbrev FenceSnapshot := FenceId → Option Nsecs

/-- State of impl.FrameTimeline: bounded history deque, pending
(fence, frame) queue, the current open DisplayFrame, the owned
TokenManager, the history bound and the thresholds. -/
structure FrameTimelineState where
  mDisplayFrames : List DisplayFrame
  mPendingPresentFences : List (FenceId × DisplayFrame)
  mCurrentDisplayFrame : Option DisplayFrame
  mTokenManager : TokenManagerState
  mMaxDisplayFrames : Nat
  mJankClassificationThresholds : JankClassificationThresholds

/-- Drops entries from the front until at most maxFrames remain. -/
def trimHistory (maxFrames : Nat) (history : List DisplayFrame) : List DisplayFrame :=
  history.drop (history.length - maxFrames)

/-- Modelled from the spec: appending a resolved DisplayFrame to the bounded
history; while the history exceeds the limit the oldest entry is discarded. -/
def appendToHistory (maxFrames : Nat) (history : List DisplayFrame)
    (df : DisplayFrame) : List DisplayFrame :=
  trimHistory maxFrames (history ++ [df])

/-- Modelled from the spec: FrameTimeline.flushPendingPresentFences walks the
pending queue in FIFO order, resolving each frame whose fence has signaled
and stopping at the first unsignaled fence: even a later fence that already
signaled waits behind it, preserving history order (section 4.6). -/
def flushPendingPresentFences (snap : FenceSnapshot) (st : FrameTimelineState) :
    FrameTimelineState :=
  let fenceSignaled : FenceId × DisplayFrame → Bool := fun e => (snap e.1).isSome
  let resolved :=
    (st.mPendingPresentFences.takeWhile fenceSignaled).map fun e =>
      e.2.onPresent ((snap e.1).getD 0)
  { st with
    mPendingPresentFences := st.mPendingPresentFences.dropWhile fenceSignaled
    mDisplayFrames := resolved.foldl (appendToHistory st.mMaxDisplayFrames) st.mDisplayFrames }

/-- The freshly constructed FrameTimeline facade: empty history and queue,
no open frame, a fresh TokenManager, and the default history bound of 64. -/
def initFrameTimeline : FrameTimelineState :=
  ⟨[], [], none, initTokenManager, kDefaultMaxDisplayFrames,
    defaultJankClassificationThresholds⟩

/-- Modelled from the spec: FrameTimeline.createSurfaceFrameForToken. With no
token: prediction state None and zero predictions. With a token: consult the
TokenManager; Valid with the stored predictions on a hit, Expired with zero
predictions on a miss. `now` is the wall-clock time of the call. -/
def createSurfaceFrameForToken (st : FrameTimelineState) (now : Nsecs)
    (token : Option Int) (ownerPid ownerUid : Int)
    (layerName debugName : String) : SurfaceFrame :=
  match token with
  | none =>
      SurfaceFrame.create INVALID_VSYNC_ID ownerPid ownerUid layerName debugName
        PredictionState.None zeroTimelineItem st.mJankClassificationThresholds
  | some t =>
      match getPredictionsForToken now t st.mTokenManager with
      | some predictions =>
          SurfaceFrame.create t ownerPid ownerUid layerName debugName
            PredictionState.Valid predictions st.mJankClassificationThresholds
      | none =>
          SurfaceFrame.create t ownerPid ownerUid layerName debugName
            PredictionState.Expired zeroTimelineItem st.mJankClassificationThresholds

/-- One ingress call to the FrameTimeline facade (or to its owned
TokenManager). Calls that drain the pending queue carry the fence snapshot
observed at call time. -/
inductive FrameTimelineOp where
  | generateToken (now : Nsecs) (prediction : TimelineItem)
  | setSfWakeUp (token : Int) (wakeupTime : Nsecs) (vsyncPeriod : Nsecs)
  | addSurfaceFrame (surfaceFrame : SurfaceFrame)
  | setSfPresent (sfPresentTime : Nsecs) (presentFence : FenceId) (snap : FenceSnapshot)
  | setMaxDisplayFrames (size : Nat)
  | reset (snap : FenceSnapshot)
  | dump (snap : FenceSnapshot)

/-- Modelled from the spec: the effect of one facade call (section 4.5).
setSfWakeUp opens a fresh DisplayFrame resolving the display predictions;
addSurfaceFrame appends to the open frame and is dropped out of protocol;
setSfPresent finalizes the open frame, enqueues it against its fence,
clears the current reference and drains; setMaxDisplayFrames bounds the
history; reset drains, restores the default bound and clears; dumps drain. -/
def applyFrameTimelineOp (st : FrameTimelineState) : FrameTimelineOp → FrameTimelineState
  | FrameTimelineOp.generateToken now prediction =>
      { st with mTokenManager := (generateTokenForPredictions now prediction st.mTokenManager).2 }
  | FrameTimelineOp.setSfWakeUp token wakeupTime vsyncPeriod =>
      { st with
        mCurrentDisplayFrame := some
          ((DisplayFrame.create st.mJankClassificationThresholds).onSfWakeUp token
            vsyncPeriod (getPredictionsForToken wakeupTime token st.mTokenManager)
            wakeupTime) }
  | FrameTimelineOp.addSurfaceFrame surfaceFrame =>
      match st.mCurrentDisplayFrame with
      | some df => { st with mCurrentDisplayFrame := some (df.addSurfaceFrame surfaceFrame) }
      | none => st
  | FrameTimelineOp.setSfPresent sfPresentTime presentFence snap =>
      match st.mCurrentDisplayFrame with
      | some df =>
          flushPendingPresentFences snap
            { st with
              mPendingPresentFences :=
                st.mPendingPresentFences ++ [(presentFence, df.finalize sfPresentTime)]
              mCurrentDisplayFrame := none }
      | none => flushPendingPresentFences snap st
  | FrameTimelineOp.setMaxDisplayFrames size =>
      { st with
        mMaxDisplayFrames := size
        mDisplayFrames := trimHistory size st.mDisplayFrames }
  | FrameTimelineOp.reset snap =>
      let st2 := flushPendingPresentFences snap st
      { st2 with
        mMaxDisplayFrames := kDefaultMaxDisplayFrames
        mDisplayFrames := []
        mCurrentDisplayFrame := none }
  | FrameTimelineOp.dump snap => flushPendingPresentFences snap st

/-- Runs a sequence of facade calls. -/
def runFrameTimelineOps (ops : List FrameTimelineOp) (st : FrameTimelineState) :
    FrameTimelineState :=
  ops.foldl applyFrameTimelineOp st

/-- One compositor-side ingest call on a SurfaceFrame, before its present
is resolved. -/
inductive SurfaceFrameIngestOp where
  | actualStartTime (t : Nsecs)
  | actualQueueTime (t : Nsecs)
  | acquireFenceTime (t : Nsecs)
  | presentState (s : PresentState) (lastLatchTime : Nsecs)

/-- Applies one ingest call. -/
def applySurfaceFrameIngestOp (sf : SurfaceFrame) : SurfaceFrameIngestOp → SurfaceFrame
  | SurfaceFrameIngestOp.actualStartTime t => sf.setActualStartTime t
  | SurfaceFrameIngestOp.actualQueueTime t => sf.setActualQueueTime t
  | SurfaceFrameIngestOp.acquireFenceTime t => sf.setAcquireFenceTime t
  | SurfaceFrameIngestOp.presentState s lastLatchTime => sf.setPresentState s lastLatchTime

/-- Applies a sequence of ingest calls. -/
def applySurfaceFrameIngestOps (ops : List SurfaceFrameIngestOp) (sf : SurfaceFrame) :
    SurfaceFrame :=
  ops.foldl applySurfaceFrameIngestOp sf

/-- Concrete fixture: a Presented SurfaceFrame with valid predictions
(60 Hz vsync, 8 ms deadline), as the facade would mint it. -/
def samplePresentedFrame : SurfaceFrame :=
  (SurfaceFrame.create 1 101 1001 "layerA" "debugA" PredictionState.Valid
      ⟨0, 8000000, 16666666⟩ defaultJankClassificationThresholds).setPresentState
    PresentState.Presented 0

/-- Concrete fixture: a Dropped SurfaceFrame with valid predictions. -/
def sampleDroppedFrame : SurfaceFrame :=
  (SurfaceFrame.create 2 102 1002 "layerB" "debugB" PredictionState.Valid
      ⟨0, 8000000, 16666666⟩ defaultJankClassificationThresholds).setPresentState
    PresentState.Dropped 0

/-- Concrete fixture: a Presented SurfaceFrame whose token lookup missed. -/
def sampleExpiredFrame : SurfaceFrame :=
  (SurfaceFrame.create 3 103 1003 "layerC" "debugC" PredictionState.Expired
      zeroTimelineItem defaultJankClassificationThresholds).setPresentState
    PresentState.Presented 0

/-- Concrete fixture: a DisplayFrame that woke at 0 with valid predictions
(deadline 10 ms, present 16.67 ms), composited the three sample surface
frames and finalized at 20 ms, hence with LateFinish ready metadata. -/
def sampleLateDisplayFrame : DisplayFrame :=
  (((((DisplayFrame.create defaultJankClassificationThresholds).onSfWakeUp 7 16666666
      (some ⟨0, 10000000, 16666666⟩) 0).addSurfaceFrame
        samplePresentedFrame).addSurfaceFrame
        sampleDroppedFrame).addSurfaceFrame
        sampleExpiredFrame).finalize 20000000

/-- Registry well-formedness: every stored key is strictly below the
running counter, so a key is never reused. Holds for the fresh TokenManager
and is preserved by every operation. -/
def TokenManagerWF (st : TokenManagerState) : Prop :=
  ∀ e ∈ st.mPredictions, e.1 < st.mCurrentToken

/-- Invariant tying one issued token to its stored record: every registry
entry under key `t` carries exactly the record `(T, p)`, and `t` is below
the counter so no later call can reuse the key. -/
def entryInv (t : Int) (T : Nsecs) (p : TimelineItem) (st : TokenManagerState) : Prop :=
  (∀ e ∈ st.mPredictions, e.1 = t → e.2 = TokenManagerPrediction.mk T p)
    ∧ t < st.mCurrentToken

/-- Concrete fixture: the ingest calls of one on-time frame. -/
def sampleIngestOps : List SurfaceFrameIngestOp :=
  [SurfaceFrameIngestOp.actualStartTime 1000000,
    SurfaceFrameIngestOp.actualQueueTime 7000000,
    SurfaceFrameIngestOp.acquireFenceTime 8000000,
    SurfaceFrameIngestOp.presentState PresentState.Presented 0]

/-- Concrete fixture: a freshly minted SurfaceFrame with valid predictions. -/
def sampleCreatedFrame : SurfaceFrame :=
  SurfaceFrame.create 5 105 1005 "layerD" "debugD" PredictionState.Valid
    ⟨0, 8000000, 16666666⟩ defaultJankClassificationThresholds

/-- Concrete fixture: a facade state with one frame pending on fence 0. -/
def samplePendingState : FrameTimelineState :=
  ⟨[], [(0, sampleLateDisplayFrame)], none, initTokenManager,
    kDefaultMaxDisplayFrames, defaultJankClassificationThresholds⟩

/-- Each generateTokenForPredictions call advances the counter by one. -/
theorem generate_currentToken (now : Nsecs) (p : TimelineItem) (st : TokenManagerState) :
    ((generateTokenForPredictions now p st).2).mCurrentToken = st.mCurrentToken + 1 :=
  rfl

/-- The tokens a call sequence returns are consecutive integers starting at
the counter value the sequence started from. -/
theorem runGenerate_tokens (gens : List (Nsecs × TimelineItem)) :
    ∀ st : TokenManagerState,
      (runGenerate gens st).1 =
        (List.range gens.length).map (fun (i : Nat) => st.mCurrentToken + (i : Int)) := by
  induction gens with
  | nil => intro st; simp [runGenerate]
  | cons g gs ih =>
      intro st
      rw [List.length_cons, List.range_succ_eq_map]
      simp only [runGenerate, ih, List.map_cons, List.map_map]
      refine congrArg₂ _ (by simp [generateTokenForPredictions])
        (List.map_congr_left fun i _ => ?_)
      simp only [Function.comp_apply, generate_currentToken, Nat.succ_eq_add_one]
      push_cast
      ring

/-- C1: over every sequence of generateTokenForPredictions calls, the
returned tokens are strictly increasing, the first returned token is
ISurfaceComposer.INVALID_VSYNC_ID + 1, and no token is returned twice. -/
theorem claim1_tokens_strictly_increasing (gens : List (Nsecs × TimelineItem)) :
    List.Pairwise (· < ·) (runGenerate gens initTokenManager).1
    ∧ (runGenerate gens initTokenManager).1.head? =
        gens.head?.map (fun _ => INVALID_VSYNC_ID + 1)
    ∧ (runGenerate gens initTokenManager).1.Nodup := by
  have hpair : List.Pairwise (· < ·) (runGenerate gens initTokenManager).1 := by
    rw [runGenerate_tokens]
    refine (List.pairwise_map).mpr ?_
    exact (List.pairwise_lt_range gens.length).imp fun h =>
      add_lt_add_left (by exact_mod_cast h) _
  refine ⟨hpair, ?_, hpair.imp fun h => ne_of_lt h⟩
  cases gens with
  | nil => simp [runGenerate]
  | cons g gs => simp [runGenerate, initTokenManager, generateTokenForPredictions]

/-- C4: the ready metadata is OnTimeFinish exactly when the actual end time
does not exceed the predicted end time by more than the deadline threshold,
so an early finish is classified on time; the default deadline threshold is
2 ms. -/
theorem claim4_ready_metadata_iff (thresholds : JankClassificationThresholds)
    (predictedEndTime actualEndTime : Nsecs) :
    (computeReadyMetadata thresholds predictedEndTime actualEndTime =
        FrameReadyMetadata.OnTimeFinish
      ↔ actualEndTime ≤ predictedEndTime + thresholds.deadlineThreshold)
    ∧ defaultJankClassificationThresholds.deadlineThreshold = 2000000 := by
  refine ⟨?_, rfl⟩
  rw [computeReadyMetadata]
  split <;> simp_all

/-- Resolving a DisplayFrame leaves its ready metadata unchanged. -/
theorem displayOnPresent_frameReadyMetadata (df : DisplayFrame) (signalTime : Nsecs) :
    (df.onPresent signalTime).mFrameReadyMetadata = df.mFrameReadyMetadata :=
  rfl

/-- The present metadata of a resolved DisplayFrame. -/
theorem displayOnPresent_framePresentMetadata (df : DisplayFrame) (signalTime : Nsecs) :
    (df.onPresent signalTime).mFramePresentMetadata = df.presentMetadataAt signalTime :=
  rfl

/-- The jank bitmask of a resolved DisplayFrame. -/
theorem displayOnPresent_jankType (df : DisplayFrame) (signalTime : Nsecs) :
    (df.onPresent signalTime).mJankType = df.presentJankAt signalTime :=
  rfl

/-- The surface frames of a resolved DisplayFrame: Presented ones are
cascaded, the rest are untouched. -/
theorem displayOnPresent_surfaceFrames (df : DisplayFrame) (signalTime : Nsecs) :
    (df.onPresent signalTime).mSurfaceFrames =
      df.mSurfaceFrames.map fun sf =>
        if sf.mPresentState = PresentState.Presented then
          sf.onPresent signalTime (df.presentJankAt signalTime) df.mVsyncPeriod
        else sf :=
  rfl

/-- The actual present time a resolved DisplayFrame records. -/
theorem displayOnPresent_presentTime (df : DisplayFrame) (signalTime : Nsecs) :
    (df.onPresent signalTime).mSurfaceFlingerActuals.presentTime = signalTime :=
  rfl

/-- C3: for a DisplayFrame with valid predictions, onPresent combines the
Ready and Present metadata into the jank bitmask: OnTimeFinish with
OnTimePresent gives None, LateFinish with LatePresent gives
SurfaceFlingerDeadlineMissed, and OnTimeFinish with LatePresent gives
DisplayHAL. -/
theorem claim3_display_jank_combination (df : DisplayFrame) (signalTime : Nsecs)
    (hvalid : df.mPredictionState = PredictionState.Valid) :
    ((df.onPresent signalTime).mFrameReadyMetadata = FrameReadyMetadata.OnTimeFinish →
      (df.onPresent signalTime).mFramePresentMetadata = FramePresentMetadata.OnTimePresent →
      (df.onPresent signalTime).mJankType = JankType.None)
    ∧ ((df.onPresent signalTime).mFrameReadyMetadata = FrameReadyMetadata.LateFinish →
      (df.onPresent signalTime).mFramePresentMetadata = FramePresentMetadata.LatePresent →
      (df.onPresent signalTime).mJankType = JankType.SurfaceFlingerDeadlineMissed)
    ∧ ((df.onPresent signalTime).mFrameReadyMetadata = FrameReadyMetadata.OnTimeFinish →
      (df.onPresent signalTime).mFramePresentMetadata = FramePresentMetadata.LatePresent →
      (df.onPresent signalTime).mJankType = JankType.DisplayHAL) := by
  refine ⟨fun h1 h2 => ?_, fun h1 h2 => ?_, fun h1 h2 => ?_⟩ <;>
  · rw [displayOnPresent_frameReadyMetadata] at h1
    rw [displayOnPresent_framePresentMetadata] at h2
    rw [displayOnPresent_jankType, DisplayFrame.presentJankAt, if_pos hvalid, h1, h2]
    rfl

/-- C3 witness: the sample late display frame (valid predictions, LateFinish
ready metadata) resolved by a fence at 33 ms is classified LatePresent and
gets SurfaceFlingerDeadlineMissed. -/
theorem claim3_witness :
    (sampleLateDisplayFrame.onPresent 33000000).mJankType =
      JankType.SurfaceFlingerDeadlineMissed :=
  (claim3_display_jank_combination sampleLateDisplayFrame 33000000 (by decide)).2.1
    (by decide) (by decide)

/-- The sweep only removes entries: whatever it keeps was stored. -/
theorem flushTokens_subset (flushTime : Nsecs)
    (m : List (Int × TokenManagerPrediction)) :
    ∀ e ∈ flushTokens flushTime m, e ∈ m :=
  fun _ he => (List.mem_filter.mp he).1

/-- The sweep keeps every entry that is not yet expired at flush time. -/
theorem mem_flushTokens (flushTime : Nsecs) {m : List (Int × TokenManagerPrediction)}
    {e : Int × TokenManagerPrediction} (hm : e ∈ m)
    (hkeep : ¬ e.2.timestamp + kMaxRetentionTime < flushTime) :
    e ∈ flushTokens flushTime m :=
  List.mem_filter.mpr ⟨hm, by simpa using hkeep⟩

/-- One generate call preserves the per-token invariant. -/
theorem entryInv_generate {t : Int} {T : Nsecs} {p : TimelineItem} (u : Nsecs)
    (q : TimelineItem) {st : TokenManagerState} (h : entryInv t T p st) :
    entryInv t T p (generateTokenForPredictions u q st).2 := by
  obtain ⟨hall, hlt⟩ := h
  refine ⟨fun e he het => ?_, lt_trans hlt (lt_add_one _)⟩
  rcases List.mem_append.mp he with hm | hm
  · exact hall e (flushTokens_subset u st.mPredictions e hm) het
  · rw [List.mem_singleton.mp hm] at het ⊢
    exact absurd het (ne_of_gt hlt)

/-- A sequence of generate calls preserves the per-token invariant. -/
theorem entryInv_applyGenerates {t : Int} {T : Nsecs} {p : TimelineItem}
    (gens : List (Nsecs × TimelineItem)) :
    ∀ {st : TokenManagerState}, entryInv t T p st →
      entryInv t T p (applyGenerates gens st) := by
  induction gens with
  | nil => exact fun h => h
  | cons g gs ih => exact fun h => ih (entryInv_generate g.1 g.2 h)

/-- A stored record that is unexpired at time `now` survives any generate
call made at or before `now`. -/
theorem mem_generate {t : Int} {T : Nsecs} {p : TimelineItem} {now u : Nsecs}
    (q : TimelineItem) {st : TokenManagerState}
    (hmem : (t, TokenManagerPrediction.mk T p) ∈ st.mPredictions)
    (hu : u ≤ now) (hnow : ¬ T + kMaxRetentionTime < now) :
    (t, TokenManagerPrediction.mk T p) ∈
      ((generateTokenForPredictions u q st).2).mPredictions :=
  List.mem_append.mpr
    (Or.inl (mem_flushTokens u hmem fun hc => hnow (lt_of_lt_of_le hc hu)))

/-- A stored record that is unexpired at time `now` survives any sequence of
generate calls made at or before `now`. -/
theorem mem_applyGenerates {t : Int} {T : Nsecs} {p : TimelineItem} {now : Nsecs}
    (gens : List (Nsecs × TimelineItem)) (hg : ∀ g ∈ gens, g.1 ≤ now)
    (hnow : ¬ T + kMaxRetentionTime < now) :
    ∀ {st : TokenManagerState}, (t, TokenManagerPrediction.mk T p) ∈ st.mPredictions →
      (t, TokenManagerPrediction.mk T p) ∈ (applyGenerates gens st).mPredictions := by
  induction gens with
  | nil => exact fun h => h
  | cons g gs ih =>
      intro st h
      exact ih (fun x hx => hg x (List.mem_cons_of_mem g hx))
        (mem_generate g.2 h (hg g (List.mem_cons_self g gs)) hnow)

/-- C2: a token issued at time T with prediction p resolves to p at any read
time before T + 120 ms, and resolves to none at any read time after
T + 120 ms, across any interleaving of further generate calls that happen
no later than the read. -/
theorem claim2_token_retention (st0 : TokenManagerState) (hwf : TokenManagerWF st0)
    (T : Nsecs) (p : TimelineItem) (gens : List (Nsecs × TimelineItem)) (now : Nsecs)
    (hgens : ∀ g ∈ gens, g.1 ≤ now) :
    (T ≤ now → now < T + kMaxRetentionTime →
      getPredictionsForToken now (generateTokenForPredictions T p st0).1
        (applyGenerates gens (generateTokenForPredictions T p st0).2) = some p)
    ∧ (T + kMaxRetentionTime < now →
      getPredictionsForToken now (generateTokenForPredictions T p st0).1
        (applyGenerates gens (generateTokenForPredictions T p st0).2) = none) := by
  have hfst : (generateTokenForPredictions T p st0).1 = st0.mCurrentToken := rfl
  have hinv1 : entryInv st0.mCurrentToken T p (generateTokenForPredictions T p st0).2 := by
    refine ⟨fun e he het => ?_, lt_add_one _⟩
    rcases List.mem_append.mp he with hm | hm
    · exact absurd het (ne_of_lt (hwf e (flushTokens_subset T st0.mPredictions e hm)))
    · exact congrArg Prod.snd (List.mem_singleton.mp hm)
  have hinvN := entryInv_applyGenerates gens hinv1
  rw [hfst]
  constructor
  · intro hT hlt
    have hnow : ¬ T + kMaxRetentionTime < now := not_lt.mpr (le_of_lt hlt)
    have hmemN : (st0.mCurrentToken, TokenManagerPrediction.mk T p) ∈
        (applyGenerates gens (generateTokenForPredictions T p st0).2).mPredictions :=
      mem_applyGenerates gens hgens hnow
        (List.mem_append.mpr (Or.inr (List.mem_singleton.mpr rfl)))
    rw [getPredictionsForToken]
    cases hfind : (applyGenerates gens
        (generateTokenForPredictions T p st0).2).mPredictions.find?
        (fun e => decide (e.1 = st0.mCurrentToken)) with
    | none =>
        have hbad := List.find?_eq_none.mp hfind _ hmemN
        simp at hbad
    | some e =>
        have hp := List.find?_some hfind
        have he2 : e.2 = TokenManagerPrediction.mk T p :=
          hinvN.1 e (List.mem_of_find?_eq_some hfind) (of_decide_eq_true hp)
        show (if e.2.timestamp + kMaxRetentionTime < now then none
          else some e.2.predictions) = some p
        rw [he2, if_neg hnow]
  · intro hgt
    rw [getPredictionsForToken]
    cases hfind : (applyGenerates gens
        (generateTokenForPredictions T p st0).2).mPredictions.find?
        (fun e => decide (e.1 = st0.mCurrentToken)) with
    | none => rfl
    | some e =>
        have hp := List.find?_some hfind
        have he2 : e.2 = TokenManagerPrediction.mk T p :=
          hinvN.1 e (List.mem_of_find?_eq_some hfind) (of_decide_eq_true hp)
        show (if e.2.timestamp + kMaxRetentionTime < now then none
          else some e.2.predictions) = none
        rw [he2, if_pos hgt]

/-- C2 witness: token 0 minted at time 0 still resolves at 110 ms across an
interleaved mint at 100 ms, and no longer resolves at 130 ms. -/
theorem claim2_witness :
    getPredictionsForToken 110000000
        (generateTokenForPredictions 0 ⟨1, 2, 3⟩ initTokenManager).1
        (applyGenerates [(100000000, ⟨4, 5, 6⟩)]
          (generateTokenForPredictions 0 ⟨1, 2, 3⟩ initTokenManager).2) = some ⟨1, 2, 3⟩
    ∧ getPredictionsForToken 130000000
        (generateTokenForPredictions 0 ⟨1, 2, 3⟩ initTokenManager).1
        (applyGenerates [(100000000, ⟨4, 5, 6⟩)]
          (generateTokenForPredictions 0 ⟨1, 2, 3⟩ initTokenManager).2) = none :=
  ⟨(claim2_token_retention initTokenManager (by intro e he; cases he) 0 ⟨1, 2, 3⟩
      [(100000000, ⟨4, 5, 6⟩)] 110000000 (by decide)).1 (by decide) (by decide),
    (claim2_token_retention initTokenManager (by intro e he; cases he) 0 ⟨1, 2, 3⟩
      [(100000000, ⟨4, 5, 6⟩)] 130000000 (by decide)).2 (by decide)⟩

/-- Resolving a SurfaceFrame leaves its present state unchanged. -/
theorem surfaceOnPresent_presentState (sf : SurfaceFrame) (t : Nsecs) (j : Nat)
    (v : Nsecs) : (sf.onPresent t j v).mPresentState = sf.mPresentState := by
  rw [SurfaceFrame.onPresent]
  split <;> rfl

/-- Resolving a SurfaceFrame leaves its prediction state unchanged. -/
theorem surfaceOnPresent_predictionState (sf : SurfaceFrame) (t : Nsecs) (j : Nat)
    (v : Nsecs) : (sf.onPresent t j v).mPredictionState = sf.mPredictionState := by
  rw [SurfaceFrame.onPresent]
  split <;> rfl

/-- Resolving a SurfaceFrame records the given present time. -/
theorem surfaceOnPresent_presentTime (sf : SurfaceFrame) (t : Nsecs) (j : Nat)
    (v : Nsecs) : (sf.onPresent t j v).mActuals.presentTime = t := by
  rw [SurfaceFrame.onPresent]
  split <;> rfl

/-- With valid predictions, the resolved SurfaceFrame verdict is the
per-surface jank computation. -/
theorem surfaceOnPresent_jankType_of_valid {sf : SurfaceFrame} (t : Nsecs) (j : Nat)
    (v : Nsecs) (h : sf.mPredictionState = PredictionState.Valid) :
    (sf.onPresent t j v).mJankType = computeSurfaceJank sf j v := by
  rw [SurfaceFrame.onPresent, if_pos h]

/-- C5 counterexample: in the sample late display frame the display verdict
includes SurfaceFlingerDeadlineMissed, yet not every contained SurfaceFrame
carries that bit after the cascade: the Dropped frame is never cascaded and
the Presented frame with expired predictions is classified Unknown. -/
theorem claim5_counterexample :
    hasJank (sampleLateDisplayFrame.onPresent 33000000).mJankType
        JankType.SurfaceFlingerDeadlineMissed = true
    ∧ ¬ ∀ sf ∈ (sampleLateDisplayFrame.onPresent 33000000).mSurfaceFrames,
        hasJank sf.mJankType JankType.SurfaceFlingerDeadlineMissed = true :=
  ⟨by decide, by decide⟩

/-- C5 as amended: when the resolved display verdict includes
SurfaceFlingerDeadlineMissed, every contained SurfaceFrame that is
Presented and has valid predictions carries SurfaceFlingerDeadlineMissed
after the cascade. -/
theorem claim5_amended_inherit (df : DisplayFrame) (signalTime : Nsecs)
    (hjank : hasJank (df.onPresent signalTime).mJankType
        JankType.SurfaceFlingerDeadlineMissed = true) :
    ∀ sf ∈ (df.onPresent signalTime).mSurfaceFrames,
      sf.mPresentState = PresentState.Presented →
      sf.mPredictionState = PredictionState.Valid →
      hasJank sf.mJankType JankType.SurfaceFlingerDeadlineMissed = true := by
  intro sf hmem hpres hvalid
  rw [displayOnPresent_jankType] at hjank
  rw [displayOnPresent_surfaceFrames] at hmem
  obtain ⟨sf0, hsf0, rfl⟩ := List.mem_map.mp hmem
  by_cases h0 : sf0.mPresentState = PresentState.Presented
  · rw [if_pos h0] at hpres hvalid ⊢
    have hvalid0 : sf0.mPredictionState = PredictionState.Valid := by
      rwa [surfaceOnPresent_predictionState] at hvalid
    rw [surfaceOnPresent_jankType_of_valid _ _ _ hvalid0, computeSurfaceJank,
      if_pos hjank]
    rfl
  · rw [if_neg h0] at hpres
    exact absurd hpres h0

/-- C5 amended witness: in the resolved sample late display frame the
Presented SurfaceFrame with valid predictions inherits the bit. -/
theorem claim5_amended_witness :
    hasJank (samplePresentedFrame.onPresent 33000000
        (sampleLateDisplayFrame.presentJankAt 33000000)
        sampleLateDisplayFrame.mVsyncPeriod).mJankType
      JankType.SurfaceFlingerDeadlineMissed = true :=
  claim5_amended_inherit sampleLateDisplayFrame 33000000 (by decide) _ (by decide)
    (by decide) (by decide)

/-- C8: after the cascade at fence resolution (a nonzero signal time, on
surface frames whose present time was still the zero sentinel), a contained
SurfaceFrame records the DisplayFrame actual present time exactly when its
present state is Presented; a Dropped SurfaceFrame keeps no present time. -/
theorem claim8_present_time_iff (df : DisplayFrame) (signalTime : Nsecs)
    (hnz : signalTime ≠ 0)
    (hpre : ∀ sf ∈ df.mSurfaceFrames, sf.mActuals.presentTime = 0) :
    ∀ sf ∈ (df.onPresent signalTime).mSurfaceFrames,
      (sf.mActuals.presentTime =
          (df.onPresent signalTime).mSurfaceFlingerActuals.presentTime
        ↔ sf.mPresentState = PresentState.Presented)
      ∧ (sf.mPresentState = PresentState.Dropped → sf.mActuals.presentTime = 0) := by
  intro sf hmem
  rw [displayOnPresent_presentTime]
  rw [displayOnPresent_surfaceFrames] at hmem
  obtain ⟨sf0, hsf0, rfl⟩ := List.mem_map.mp hmem
  by_cases h0 : sf0.mPresentState = PresentState.Presented
  · rw [if_pos h0]
    refine ⟨⟨fun _ => ?_, fun _ => surfaceOnPresent_presentTime sf0 _ _ _⟩, fun hd => ?_⟩
    · rw [surfaceOnPresent_presentState]
      exact h0
    · rw [surfaceOnPresent_presentState] at hd
      rw [h0] at hd
      cases hd
  · rw [if_neg h0]
    have hz := hpre sf0 hsf0
    refine ⟨⟨fun he => absurd (hz ▸ he).symm hnz, fun hp => absurd hp h0⟩, fun _ => hz⟩

/-- C8 witness: in the resolved sample late display frame, the Dropped
SurfaceFrame keeps the zero present time and fails the Presented test. -/
theorem claim8_witness :
    (sampleDroppedFrame.mActuals.presentTime =
        (sampleLateDisplayFrame.onPresent 33000000).mSurfaceFlingerActuals.presentTime
      ↔ sampleDroppedFrame.mPresentState = PresentState.Presented)
    ∧ (sampleDroppedFrame.mPresentState = PresentState.Dropped →
        sampleDroppedFrame.mActuals.presentTime = 0) :=
  claim8_present_time_iff sampleLateDisplayFrame 33000000 (by decide) (by decide)
    sampleDroppedFrame (by decide)

/-- C9: createSurfaceFrameForToken resolves the prediction state: no token
gives None with zero predictions; a token that the TokenManager still
resolves gives Valid with the stored predictions; a token the lookup misses
gives Expired with zero predictions. -/
theorem claim9_create_surface_frame (st : FrameTimelineState) (now : Nsecs)
    (ownerPid ownerUid : Int) (layerName debugName : String) :
    ((createSurfaceFrameForToken st now none ownerPid ownerUid layerName
          debugName).mPredictionState = PredictionState.None
      ∧ (createSurfaceFrameForToken st now none ownerPid ownerUid layerName
          debugName).mPredictions = zeroTimelineItem)
    ∧ (∀ (t : Int) (predictions : TimelineItem),
        getPredictionsForToken now t st.mTokenManager = some predictions →
        (createSurfaceFrameForToken st now (some t) ownerPid ownerUid layerName
            debugName).mPredictionState = PredictionState.Valid
          ∧ (createSurfaceFrameForToken st now (some t) ownerPid ownerUid layerName
              debugName).mPredictions = predictions)
    ∧ (∀ t : Int,
        getPredictionsForToken now t st.mTokenManager = none →
        (createSurfaceFrameForToken st now (some t) ownerPid ownerUid layerName
            debugName).mPredictionState = PredictionState.Expired
          ∧ (createSurfaceFrameForToken st now (some t) ownerPid ownerUid layerName
              debugName).mPredictions = zeroTimelineItem) := by
  refine ⟨⟨rfl, rfl⟩, fun t predictions h => ?_, fun t h => ?_⟩ <;>
    exact ⟨by simp [createSurfaceFrameForToken, h, SurfaceFrame.create],
      by simp [createSurfaceFrameForToken, h, SurfaceFrame.create]⟩

/-- The ingest calls never touch the actual present time or the stored
jank bitmask. -/
theorem ingest_preserves (ops : List SurfaceFrameIngestOp) :
    ∀ sf : SurfaceFrame,
      (applySurfaceFrameIngestOps ops sf).mActuals.presentTime =
          sf.mActuals.presentTime
        ∧ (applySurfaceFrameIngestOps ops sf).mJankType = sf.mJankType := by
  induction ops with
  | nil => exact fun sf => ⟨rfl, rfl⟩
  | cons op ops ih =>
      intro sf
      have h1 : (applySurfaceFrameIngestOp sf op).mActuals.presentTime =
          sf.mActuals.presentTime := by
        cases op <;> rfl
      have h2 : (applySurfaceFrameIngestOp sf op).mJankType = sf.mJankType := by
        cases op <;> rfl
      exact ⟨((ih _).1).trans h1, ((ih _).2).trans h2⟩

/-- C10: a SurfaceFrame built by the constructor and mutated by any
sequence of ingest calls answers none from getJankType even though its
stored bitmask is JankType.None, and answers some bitmask once onPresent
has run with a positive present time. -/
theorem claim10_jank_query (token ownerPid ownerUid : Int)
    (layerName debugName : String) (predictionState : PredictionState)
    (predictions : TimelineItem) (thresholds : JankClassificationThresholds)
    (ops : List SurfaceFrameIngestOp) (presentTime : Nsecs)
    (displayFrameJankType : Nat) (vsyncPeriod : Nsecs) (hpt : 0 < presentTime) :
    (applySurfaceFrameIngestOps ops (SurfaceFrame.create token ownerPid ownerUid
        layerName debugName predictionState predictions thresholds)).getJankType =
      none
    ∧ (applySurfaceFrameIngestOps ops (SurfaceFrame.create token ownerPid ownerUid
        layerName debugName predictionState predictions thresholds)).mJankType =
      JankType.None
    ∧ ((applySurfaceFrameIngestOps ops (SurfaceFrame.create token ownerPid ownerUid
        layerName debugName predictionState predictions thresholds)).onPresent
          presentTime displayFrameJankType vsyncPeriod).getJankType =
      some ((applySurfaceFrameIngestOps ops (SurfaceFrame.create token ownerPid
        ownerUid layerName debugName predictionState predictions
        thresholds)).onPresent presentTime displayFrameJankType
          vsyncPeriod).mJankType := by
  have h := ingest_preserves ops (SurfaceFrame.create token ownerPid ownerUid
    layerName debugName predictionState predictions thresholds)
  generalize hgen : applySurfaceFrameIngestOps ops (SurfaceFrame.create token
    ownerPid ownerUid layerName debugName predictionState predictions
    thresholds) = sfr at h ⊢
  obtain ⟨h1, h2⟩ := h
  have hz : sfr.mActuals.presentTime = 0 := h1
  have hj : sfr.mJankType = JankType.None := h2
  have hnz : (sfr.onPresent presentTime displayFrameJankType
      vsyncPeriod).mActuals.presentTime ≠ 0 := by
    rw [surfaceOnPresent_presentTime]
    exact ne_of_gt hpt
  exact ⟨by rw [SurfaceFrame.getJankType, if_pos hz], hj,
    by rw [SurfaceFrame.getJankType, if_neg hnz]⟩

/-- C10 witness: the sample created frame after the sample ingest calls. -/
theorem claim10_witness :
    (applySurfaceFrameIngestOps sampleIngestOps (SurfaceFrame.create 5 105 1005
        "layerD" "debugD" PredictionState.Valid ⟨0, 8000000, 16666666⟩
        defaultJankClassificationThresholds)).getJankType = none
    ∧ (applySurfaceFrameIngestOps sampleIngestOps (SurfaceFrame.create 5 105 1005
        "layerD" "debugD" PredictionState.Valid ⟨0, 8000000, 16666666⟩
        defaultJankClassificationThresholds)).mJankType = JankType.None
    ∧ ((applySurfaceFrameIngestOps sampleIngestOps (SurfaceFrame.create 5 105 1005
        "layerD" "debugD" PredictionState.Valid ⟨0, 8000000, 16666666⟩
        defaultJankClassificationThresholds)).onPresent 16666666 JankType.None
          16666666).getJankType =
      some ((applySurfaceFrameIngestOps sampleIngestOps (SurfaceFrame.create 5 105
        1005 "layerD" "debugD" PredictionState.Valid ⟨0, 8000000, 16666666⟩
        defaultJankClassificationThresholds)).onPresent 16666666 JankType.None
          16666666).mJankType :=
  claim10_jank_query 5 105 1005 "layerD" "debugD" PredictionState.Valid
    ⟨0, 8000000, 16666666⟩ defaultJankClassificationThresholds sampleIngestOps
    16666666 JankType.None 16666666 (by decide)

/-- Trimming leaves at most maxFrames entries. -/
theorem length_trimHistory (maxFrames : Nat) (history : List DisplayFrame) :
    (trimHistory maxFrames history).length ≤ maxFrames := by
  rw [trimHistory, List.length_drop]
  omega

/-- Appending to the bounded history leaves at most maxFrames entries. -/
theorem length_appendToHistory (maxFrames : Nat) (history : List DisplayFrame)
    (df : DisplayFrame) :
    (appendToHistory maxFrames history df).length ≤ maxFrames :=
  length_trimHistory maxFrames (history ++ [df])

/-- Folding bounded appends over any list keeps the bound, provided it held
at the start. -/
theorem length_foldl_appendToHistory (maxFrames : Nat) (l : List DisplayFrame) :
    ∀ history : List DisplayFrame, history.length ≤ maxFrames →
      (l.foldl (appendToHistory maxFrames) history).length ≤ maxFrames := by
  induction l with
  | nil => exact fun _ hh => hh
  | cons d l ih => exact fun history _ => ih _ (length_appendToHistory maxFrames history d)

/-- The drain changes neither the bound nor breaks the history bound. -/
theorem flush_history_bound (snap : FenceSnapshot) (st : FrameTimelineState)
    (h : st.mDisplayFrames.length ≤ st.mMaxDisplayFrames) :
    (flushPendingPresentFences snap st).mDisplayFrames.length ≤
      (flushPendingPresentFences snap st).mMaxDisplayFrames :=
  length_foldl_appendToHistory st.mMaxDisplayFrames _ st.mDisplayFrames h

/-- Every facade call preserves the history bound. -/
theorem applyOp_history_bound (op : FrameTimelineOp) (st : FrameTimelineState)
    (h : st.mDisplayFrames.length ≤ st.mMaxDisplayFrames) :
    (applyFrameTimelineOp st op).mDisplayFrames.length ≤
      (applyFrameTimelineOp st op).mMaxDisplayFrames := by
  cases op with
  | generateToken now prediction => exact h
  | setSfWakeUp token wakeupTime vsyncPeriod => exact h
  | addSurfaceFrame surfaceFrame =>
      rw [applyFrameTimelineOp]
      cases st.mCurrentDisplayFrame with
      | some df => exact h
      | none => exact h
  | setSfPresent sfPresentTime presentFence snap =>
      rw [applyFrameTimelineOp]
      cases st.mCurrentDisplayFrame with
      | some df => exact flush_history_bound snap _ h
      | none => exact flush_history_bound snap st h
  | setMaxDisplayFrames size => exact length_trimHistory size st.mDisplayFrames
  | reset snap => exact Nat.zero_le _
  | dump snap => exact flush_history_bound snap st h

/-- C6: from the fresh facade, after any sequence of calls the history
length never exceeds the configured bound; the initial bound is the default
64; and an append onto a full history discards the oldest entry first. -/
theorem claim6_history_bounded :
    (∀ ops : List FrameTimelineOp,
      (runFrameTimelineOps ops initFrameTimeline).mDisplayFrames.length ≤
        (runFrameTimelineOps ops initFrameTimeline).mMaxDisplayFrames)
    ∧ initFrameTimeline.mMaxDisplayFrames = 64
    ∧ ∀ (maxFrames : Nat) (history : List DisplayFrame) (df : DisplayFrame),
        history.length = maxFrames → 0 < maxFrames →
        appendToHistory maxFrames history df = history.drop 1 ++ [df] := by
  have hrun : ∀ (ops : List FrameTimelineOp) (st : FrameTimelineState),
      st.mDisplayFrames.length ≤ st.mMaxDisplayFrames →
      (runFrameTimelineOps ops st).mDisplayFrames.length ≤
        (runFrameTimelineOps ops st).mMaxDisplayFrames := by
    intro ops
    induction ops with
    | nil => exact fun _ hh => hh
    | cons op ops ih => exact fun st hh => ih _ (applyOp_history_bound op st hh)
  refine ⟨fun ops => hrun ops initFrameTimeline (Nat.zero_le _), rfl, ?_⟩
  intro maxFrames history df hlen hpos
  rw [appendToHistory, trimHistory, List.length_append, hlen]
  have h1 : maxFrames + [df].length - maxFrames = 1 := by simp
  rw [h1, List.drop_append_of_le_length (by omega)]

/-- C6 witness: with the bound at 2 and a full history, the third frame
evicts the oldest; and a concrete run respects the bound. -/
theorem claim6_witness :
    appendToHistory 2
        [DisplayFrame.create defaultJankClassificationThresholds,
          sampleLateDisplayFrame] (DisplayFrame.create defaultJankClassificationThresholds) =
      [sampleLateDisplayFrame, DisplayFrame.create defaultJankClassificationThresholds]
    ∧ (runFrameTimelineOps [FrameTimelineOp.setMaxDisplayFrames 1]
        initFrameTimeline).mDisplayFrames.length ≤
      (runFrameTimelineOps [FrameTimelineOp.setMaxDisplayFrames 1]
        initFrameTimeline).mMaxDisplayFrames :=
  ⟨claim6_history_bounded.2.2 2
      [DisplayFrame.create defaultJankClassificationThresholds, sampleLateDisplayFrame]
      (DisplayFrame.create defaultJankClassificationThresholds) rfl (by decide),
    claim6_history_bounded.1 [FrameTimelineOp.setMaxDisplayFrames 1]⟩

/-- takeWhile over a satisfied block followed by a failing element takes
exactly the block. -/
theorem takeWhile_append_block {α : Type} (p : α → Bool) (l2 : List α) (e : α)
    (h2 : p e = false) :
    ∀ l1 : List α, (∀ x ∈ l1, p x = true) →
      (l1 ++ e :: l2).takeWhile p = l1 := by
  intro l1
  induction l1 with
  | nil => intro _; simp [List.takeWhile_cons, h2]
  | cons a l ih =>
      intro h1
      rw [List.cons_append, List.takeWhile_cons, if_pos (h1 a (List.mem_cons_self a l)),
        ih fun x hx => h1 x (List.mem_cons_of_mem a hx)]

/-- dropWhile over a satisfied block followed by a failing element drops
exactly the block. -/
theorem dropWhile_append_block {α : Type} (p : α → Bool) (l2 : List α) (e : α)
    (h2 : p e = false) :
    ∀ l1 : List α, (∀ x ∈ l1, p x = true) →
      (l1 ++ e :: l2).dropWhile p = e :: l2 := by
  intro l1
  induction l1 with
  | nil => intro _; simp [List.dropWhile_cons, h2]
  | cons a l ih =>
      intro h1
      rw [List.cons_append, List.dropWhile_cons, if_pos (h1 a (List.mem_cons_self a l)),
        ih fun x hx => h1 x (List.mem_cons_of_mem a hx)]

/-- Folding bounded appends preserves any pairwise relation that held on
the unbounded concatenation, since trimming only drops entries. -/
theorem pairwise_foldl_appendToHistory {R : DisplayFrame → DisplayFrame → Prop}
    (maxFrames : Nat) (l : List DisplayFrame) :
    ∀ history : List DisplayFrame, (history ++ l).Pairwise R →
      (l.foldl (appendToHistory maxFrames) history).Pairwise R := by
  induction l with
  | nil => intro history hp; simpa using hp
  | cons d l ih =>
      intro history hp
      apply ih
      have hsub : List.Sublist (appendToHistory maxFrames history d ++ l)
          ((history ++ [d]) ++ l) :=
        (List.drop_sublist _ _).append_right l
      have hassoc : (history ++ [d]) ++ l = history ++ d :: l := by simp
      exact List.Pairwise.sublist hsub (hassoc ▸ hp)

/-- C7: the drain never resolves a frame past an earlier unsignaled fence:
when the queue is a signaled block followed by an unsignaled entry, exactly
the block is resolved in order and the unsignaled entry with everything
after it stays queued; and when the observed signal times of the signaled
block extend the history present times in non-decreasing order, the history
stays in non-decreasing actual present time order. -/
theorem claim7_fifo_drain :
    (∀ (snap : FenceSnapshot) (st : FrameTimelineState)
        (ahead : List (FenceId × DisplayFrame)) (e : FenceId × DisplayFrame)
        (rest : List (FenceId × DisplayFrame)),
        st.mPendingPresentFences = ahead ++ e :: rest →
        (∀ x ∈ ahead, (snap x.1).isSome = true) →
        snap e.1 = none →
        (flushPendingPresentFences snap st).mPendingPresentFences = e :: rest
          ∧ (flushPendingPresentFences snap st).mDisplayFrames =
            (ahead.map fun x => x.2.onPresent ((snap x.1).getD 0)).foldl
              (appendToHistory st.mMaxDisplayFrames) st.mDisplayFrames)
    ∧ (∀ (snap : FenceSnapshot) (st : FrameTimelineState),
        List.Pairwise (· ≤ ·)
          (st.mDisplayFrames.map (fun df => df.mSurfaceFlingerActuals.presentTime)
            ++ (st.mPendingPresentFences.takeWhile fun x => (snap x.1).isSome).map
              fun x => (snap x.1).getD 0) →
        List.Pairwise (· ≤ ·)
          ((flushPendingPresentFences snap st).mDisplayFrames.map
            fun df => df.mSurfaceFlingerActuals.presentTime)) := by
  constructor
  · intro snap st ahead e rest hsplit hsig hblock
    have hfalse : ((fun x : FenceId × DisplayFrame => (snap x.1).isSome) e) = false := by
      show (snap e.1).isSome = false
      rw [hblock]
      rfl
    constructor
    · show st.mPendingPresentFences.dropWhile
          (fun x => (snap x.1).isSome) = e :: rest
      rw [hsplit]
      exact dropWhile_append_block _ rest e hfalse ahead hsig
    · show ((st.mPendingPresentFences.takeWhile fun x => (snap x.1).isSome).map fun x =>
          x.2.onPresent ((snap x.1).getD 0)).foldl
            (appendToHistory st.mMaxDisplayFrames) st.mDisplayFrames =
        (ahead.map fun x => x.2.onPresent ((snap x.1).getD 0)).foldl
          (appendToHistory st.mMaxDisplayFrames) st.mDisplayFrames
      rw [hsplit, takeWhile_append_block _ rest e hfalse ahead hsig]
  · intro snap st hp
    have hmap : ((st.mPendingPresentFences.takeWhile fun x => (snap x.1).isSome).map
          fun x => (snap x.1).getD 0) =
        (((st.mPendingPresentFences.takeWhile fun x => (snap x.1).isSome).map fun x =>
          x.2.onPresent ((snap x.1).getD 0)).map
            fun df => df.mSurfaceFlingerActuals.presentTime) := by
      rw [List.map_map]
      rfl
    rw [hmap, ← List.map_append] at hp
    rw [List.pairwise_map] at hp
    show (((st.mPendingPresentFences.takeWhile fun x => (snap x.1).isSome).map fun x =>
        x.2.onPresent ((snap x.1).getD 0)).foldl
          (appendToHistory st.mMaxDisplayFrames) st.mDisplayFrames).map
        (fun df => df.mSurfaceFlingerActuals.presentTime) |>.Pairwise (· ≤ ·)
    rw [List.pairwise_map]
    exact pairwise_foldl_appendToHistory st.mMaxDisplayFrames _ st.mDisplayFrames hp

/-- C7 witness: with the single pending fence unsignaled the queue is
untouched; with it signaled at 16 ms the drained history is ordered. -/
theorem claim7_witness :
    (flushPendingPresentFences (fun _ => none)
        samplePendingState).mPendingPresentFences = [(0, sampleLateDisplayFrame)]
    ∧ List.Pairwise (· ≤ ·)
        ((flushPendingPresentFences (fun _ => some 16000000)
          samplePendingState).mDisplayFrames.map
            fun df => df.mSurfaceFlingerActuals.presentTime) :=
  ⟨(claim7_fifo_drain.1 (fun _ => none) samplePendingState []
      (0, sampleLateDisplayFrame) [] rfl (fun x hx => absurd hx (List.not_mem_nil x))
      rfl).1,
    claim7_fifo_drain.2 (fun _ => some 16000000) samplePendingState (by decide)⟩

end Frametimeline
